import Mathlib

/-!
Verification of the matrix-mapper Symbol Field Renderer
(`src/components/RealityMapper.tsx`) against its specification.

The render pipeline is shallowly embedded over `ℚ`: per-cell buffers are
functions `ℕ → ℚ`, JavaScript numbers become rationals, and the two
transcendental library calls (`Math.pow`, `Math.sin`) are passed in as
explicit oracle parameters so the rest of the pipeline stays executable.
-/

namespace MatrixMapper

/-- `const baseDecay = 0.5 + (decayScale / 100) * 0.3` (RealityMapper line 274). -/
def baseDecay (decayScale : ℚ) : ℚ :=
  1/2 + decayScale / 100 * (3/10)

/-- `const streamDecayFactor = 0.05 + (streamTrailDecayScale / 100) * 0.93`
(RealityMapper line 275). -/
def streamDecayFactor (streamTrailDecayScale : ℚ) : ℚ :=
  1/20 + streamTrailDecayScale / 100 * (93/100)

/-- Per-cell energy update of PASS 1 (RealityMapper lines 298–306):
threshold the target from luma/motion, then asymmetric attack
(`attack = 0.4`) toward the target or multiplicative decay, the decay
factor chosen by comparing current energy against `0.3`. -/
def energyStep (sdf bdf luma delta current : ℚ) : ℚ :=
  let target : ℚ := if luma > 3/5 ∨ delta > 1/10 then 1 else 0
  if target > current then
    current + (target - current) * (2/5)
  else
    current * (if current > 3/10 then sdf else bdf)

/-- Edge value of PASS 2 (RealityMapper lines 358–366): interior cells get
the 4-neighbour discrete Laplacian of the current-frame luma grid, border
cells keep the initial 0.  Buffers are linear and row-major: cell
`(cx, cy)` lives at index `cy * cols + cx`. -/
def edgeAt (cols rows : ℕ) (currentLuma : ℕ → ℚ) (cx cy : ℕ) : ℚ :=
  if 0 < cx ∧ cx < cols - 1 ∧ 0 < cy ∧ cy < rows - 1 then
    |4 * currentLuma (cy * cols + cx) - currentLuma (cy * cols + cx - 1) -
      currentLuma (cy * cols + cx + 1) - currentLuma (cy * cols + cx - cols) -
      currentLuma (cy * cols + cx + cols)|
  else 0

/-- One rain-column head update (RealityMapper lines 236–241): advance by
the constant 0.4, then reset to `-20 - Math.random() * 50` when the
advanced head exceeds `rows`. -/
def dropStep (rows : ℕ) (randReset p : ℚ) : ℚ :=
  if p + 2/5 > (rows : ℚ) then -20 - randReset * 50 else p + 2/5

/-- The 4×4 Bayer dither matrix of PASS 2 (RealityMapper lines 278–283);
only indices 0–3 are ever used (callers index with `mod 4`). -/
def bayerMatrix (r c : ℕ) : ℚ :=
  if r = 0 then
    if c = 0 then 0/16 else if c = 1 then 8/16 else if c = 2 then 2/16 else 10/16
  else if r = 1 then
    if c = 0 then 12/16 else if c = 1 then 4/16 else if c = 2 then 14/16 else 6/16
  else if r = 2 then
    if c = 0 then 3/16 else if c = 1 then 11/16 else if c = 2 then 1/16 else 9/16
  else
    if c = 0 then 15/16 else if c = 1 then 7/16 else if c = 2 then 13/16 else 5/16

/-- Glyph selection of PASS 2 (RealityMapper lines 375–398), over the
already-computed per-cell quantities.  Note the high-energy branch
compares the gamma-corrected luma `lumaNorm` against the Bayer threshold,
not the shadow-lifted `structure` value (the source variable `structure`
is `structureVal` here, since `structure` is a Lean keyword). -/
def selectGlyph (energy lumaNorm structureVal edge bayerThreshold : ℚ)
    (isRain : Bool) (i frameTick : ℕ) : Char :=
  if energy > 1/2 then
    if lumaNorm > bayerThreshold then '1' else '0'
  else if isRain then
    if (i + frameTick) &&& 4 ≠ 0 then '1' else '0'
  else if edge > 3/20 then '1'
  else if structureVal > 3/5 then '1'
  else if structureVal > 1/4 then
    if structureVal > bayerThreshold * (4/5) + 1/10 then '1' else '0'
  else if structureVal > 2/25 then
    if structureVal > bayerThreshold * (3/2) then '0' else ' '
  else ' '

/-- The glyph policy exactly as claim C6 words it: identical to
`selectGlyph` except that the high-energy branch compares the `structure`
value against the Bayer threshold entry. -/
def selectGlyphClaimed (energy _lumaNorm structureVal edge bayerThreshold : ℚ)
    (isRain : Bool) (i frameTick : ℕ) : Char :=
  if energy > 1/2 then
    if structureVal > bayerThreshold then '1' else '0'
  else if isRain then
    if (i + frameTick) &&& 4 ≠ 0 then '1' else '0'
  else if edge > 3/20 then '1'
  else if structureVal > 3/5 then '1'
  else if structureVal > 1/4 then
    if structureVal > bayerThreshold * (4/5) + 1/10 then '1' else '0'
  else if structureVal > 2/25 then
    if structureVal > bayerThreshold * (3/2) then '0' else ' '
  else ' '

/-- High-energy branch of the amended glyph policy: Bayer dither of the
gamma-corrected luma. -/
def ditherGlyph (lumaNorm bayerThreshold : ℚ) : Char :=
  if lumaNorm > bayerThreshold then '1' else '0'

/-- Rain-trail branch of the amended glyph policy: alternating glyph keyed
by cell index plus frame count. -/
def rainGlyph (i frameTick : ℕ) : Char :=
  if (i + frameTick) &&& 4 ≠ 0 then '1' else '0'

/-- Fallback three-tier structure-to-glyph mapping of the amended glyph
policy: solid highlights, Bayer-dithered midtones, sparse darks, blank
below the floor. -/
def structureTier (structureVal bayerThreshold : ℚ) : Char :=
  if structureVal > 3/5 then '1'
  else if structureVal > 1/4 then
    if structureVal > bayerThreshold * (4/5) + 1/10 then '1' else '0'
  else if structureVal > 2/25 then
    if structureVal > bayerThreshold * (3/2) then '0' else ' '
  else ' '

/-- The glyph policy as amended: the priority order of claim C6 with the
high-energy branch driven by the gamma-corrected luma instead of the
structure value. -/
def glyphPolicyAmended (energy lumaNorm structureVal edge bayerThreshold : ℚ)
    (isRain : Bool) (i frameTick : ℕ) : Char :=
  if energy > 1/2 then ditherGlyph lumaNorm bayerThreshold
  else if isRain then rainGlyph i frameTick
  else if edge > 3/20 then '1'
  else structureTier structureVal bayerThreshold

/-- JavaScript `x | 0` on an in-range number: truncation toward zero. -/
def jsTrunc (q : ℚ) : ℤ := if 0 ≤ q then ⌊q⌋ else -⌊-q⌋

/-- Terminal-mode colour of PASS 2 (RealityMapper lines 426–459): the
green channel carries ambient (24) + structure (·180) + edge glow +
digital energy + rain terms; red and blue both carry only the rain
highlight plus the thermal-bloom kick; both are clamped above at 255 and
truncated to an integer. -/
def terminalColor (structureVal edge energy : ℚ) (isRain isRainHead : Bool) :
    ℤ × ℤ × ℤ :=
  let val : ℚ :=
    if edge > 1/10 then 24 + structureVal * 180 + edge * 150 * (1/2 + structureVal)
    else 24 + structureVal * 180
  let digitalGreen : ℚ := energy * 220
  let rainIntensity : ℚ := if isRainHead then 1 else 2/5
  let rainGreen : ℚ :=
    if isRain then rainIntensity * 30 + rainIntensity * structureVal * 180 else 0
  let rainHighlight : ℚ :=
    if isRain ∧ isRainHead ∧ structureVal > 3/10 then 120 * structureVal else 0
  let totalG : ℚ := val + digitalGreen + 0 + rainGreen
  let totalRB : ℚ := rainHighlight
  let totalG : ℚ := if energy > 3/4 then totalG + 60 else totalG
  let totalRB : ℚ := if energy > 3/4 then totalRB + (energy - 3/4) * 600 else totalRB
  (jsTrunc (if totalRB > 255 then 255 else totalRB),
   jsTrunc (if totalG > 255 then 255 else totalG),
   jsTrunc (if totalRB > 255 then 255 else totalRB))

/-- Auto-exposure update of the calibration engine (second engine variant,
RealityMapper lines 666–680): set `signalMean` to the mean of the luma
buffer, step `exposureGain` by `(0.45 − signalMean) · 0.01`, then clamp to
[0.7, 1.5]. -/
def exposureUpdate (lumas : List ℚ) (exposureGain : ℚ) : ℚ × ℚ :=
  let signalMean := lumas.sum / lumas.length
  let g := exposureGain + (9/20 - signalMean) * (1/100)
  (signalMean, max (7/10) (min (3/2) g))

/-- The cross-frame mutable state of the first engine variant: frame
counter, rain-column buffer (allocated length plus contents) and the
energy / previous-luma / current-luma buffers (shared allocated length
plus contents).  Buffers are total functions read below the recorded
length. -/
structure EngineState where
  frameCount : ℕ
  dropsLen : ℕ
  drops : ℕ → ℚ
  cellsLen : ℕ
  energy : ℕ → ℚ
  prevLuma : ℕ → ℚ
  currentLuma : ℕ → ℚ

/-- Rain-column (re)allocation (RealityMapper lines 225–230): a fresh
buffer of random negative offsets `rand·(−rows)` when the stored length
differs from `cols`; otherwise the existing buffer is kept untouched. -/
def dropsRealloc (cols rows : ℕ) (randInit : ℕ → ℚ) (dropsLen : ℕ)
    (drops : ℕ → ℚ) : ℕ × (ℕ → ℚ) :=
  if dropsLen ≠ cols then (cols, fun i => randInit i * (-(rows : ℚ)))
  else (dropsLen, drops)

/-- Energy/luma buffer (re)allocation (RealityMapper lines 264–268):
fresh zero-filled buffers when the stored length differs from
`cols·rows`; otherwise the existing buffers are kept untouched. -/
def energyRealloc (numCells cellsLen : ℕ)
    (energy prevLuma currentLuma : ℕ → ℚ) :
    ℕ × (ℕ → ℚ) × (ℕ → ℚ) × (ℕ → ℚ) :=
  if cellsLen ≠ numCells then (numCells, fun _ => 0, fun _ => 0, fun _ => 0)
  else (cellsLen, energy, prevLuma, currentLuma)

/-- Per-cell perceptual luma (RealityMapper line 291): Rec. 709 weights
over RGB bytes, normalised by 255. -/
def lumaOf (r g b : ℚ) : ℚ :=
  (r * (2126/10000) + g * (7152/10000) + b * (722/10000)) / 255

/-- One `render()` tick of the first engine variant (RealityMapper lines
210–467), restricted to its engine-state effects: the early-out on the
video ready flag, rain-column reallocation and update, the frame counter,
energy/luma reallocation and PASS 1.  The returned boolean records that
the next tick is scheduled (`requestAnimationFrame`, line 466, runs
unconditionally).  `randInit`/`randReset` stand for this tick's
`Math.random()` draws. -/
def renderTick (ready : Bool) (cols rows : ℕ)
    (decayScale streamTrailDecayScale : ℚ) (pixels : ℕ → ℚ × ℚ × ℚ)
    (randInit randReset : ℕ → ℚ) (st : EngineState) : EngineState × Bool :=
  if ready then
    let dr := dropsRealloc cols rows randInit st.dropsLen st.drops
    let fc := st.frameCount + 1
    let drops : ℕ → ℚ := fun i =>
      if i < cols then dropStep rows (randReset i) (dr.2 i) else dr.2 i
    if 0 < cols ∧ 0 < rows then
      let numCells := cols * rows
      let er := energyRealloc numCells st.cellsLen st.energy st.prevLuma
        st.currentLuma
      let lumaAt : ℕ → ℚ := fun i =>
        lumaOf (pixels i).1 (pixels i).2.1 (pixels i).2.2
      let energy : ℕ → ℚ := fun i =>
        if i < numCells then
          energyStep (streamDecayFactor streamTrailDecayScale)
            (baseDecay decayScale) (lumaAt i) |lumaAt i - er.2.2.1 i| (er.2.1 i)
        else er.2.1 i
      let prevLuma : ℕ → ℚ := fun i =>
        if i < numCells then lumaAt i else er.2.2.1 i
      let currentLuma : ℕ → ℚ := fun i =>
        if i < numCells then lumaAt i else er.2.2.2 i
      (⟨fc, dr.1, drops, er.1, energy, prevLuma, currentLuma⟩, true)
    else
      (⟨fc, dr.1, drops, st.cellsLen, st.energy, st.prevLuma,
        st.currentLuma⟩, true)
  else (st, true)

/-- A state used to exercise the skip paths of `renderTick`. -/
def skipState : EngineState :=
  ⟨0, 1, fun _ => 5, 16, fun _ => 1/2, fun _ => 0, fun _ => 0⟩

/-- Adaptive gamma (RealityMapper line 312): three-band choice driven by
the frame's average luma. -/
def adaptiveGamma (avgLuma : ℚ) : ℚ :=
  if avgLuma < 3/10 then 11/5 else if avgLuma > 7/10 then 3/2 else 9/5

/-- The `totalLuma` accumulated in PASS 1 (RealityMapper lines 285–292). -/
def totalLumaOf (numCells : ℕ) (pixels : ℕ → ℚ × ℚ × ℚ) : ℚ :=
  ((List.range numCells).map (fun i =>
    lumaOf (pixels i).1 (pixels i).2.1 (pixels i).2.2)).sum

/-- Natural-mode colour (RealityMapper lines 400–419): blend sampled RGB
with grayscale luma by an energy-driven saturation, multiply by an
energy-driven exposure, shift toward blue at low energy, then clamp to
[0, 255] and truncate. -/
def naturalColor (r g b lumaNorm energy : ℚ) : ℤ × ℤ × ℤ :=
  let saturation := 2/5 + energy * (3/5)
  let lumaByte := lumaNorm * 255
  let arR := r * saturation + lumaByte * (1 - saturation)
  let arG := g * saturation + lumaByte * (1 - saturation)
  let arB := b * saturation + lumaByte * (1 - saturation)
  let exposure := 4/5 + energy * (1/2)
  let arR := arR * exposure
  let arG := arG * exposure
  let arB := arB * exposure
  let arR := if energy < 3/10 then arR - 5 else arR
  let arB := if energy < 3/10 then arB + 15 else arB
  (jsTrunc (if arR > 255 then 255 else if arR < 0 then 0 else arR),
   jsTrunc (if arG > 255 then 255 else if arG < 0 then 0 else arG),
   jsTrunc (if arB > 255 then 255 else if arB < 0 then 0 else arB))

/-- PASS 2 per-cell output (RealityMapper lines 327–462): glyph plus RGB
colour for cell `i`, computed from the tick's post-PASS-1 state.  `powf`
and `sinf` are the `Math.pow` / `Math.sin` oracles. -/
def renderCell (cols rows : ℕ) (showColor : Bool) (powf : ℚ → ℚ → ℚ)
    (sinf : ℚ → ℚ) (pixels : ℕ → ℚ × ℚ × ℚ) (st : EngineState) (i : ℕ) :
    Char × ℤ × ℤ × ℤ :=
  let numCells := cols * rows
  let gamma := adaptiveGamma (totalLumaOf numCells pixels / (numCells : ℚ))
  let p := pixels i
  let lumaNorm := powf (lumaOf p.1 p.2.1 p.2.2) gamma
  let structureVal := lumaNorm * (9/5 - lumaNorm)
  let solarPulse := sinf ((st.frameCount : ℚ) * (1/10))
  let brightModulator := 2/5 + solarPulse * (3/10)
  let structureVal :=
    if lumaNorm > 3/5 then structureVal * brightModulator else structureVal
  let cx := i % cols
  let cy := i / cols
  let edge := edgeAt cols rows st.currentLuma cx cy
  let energy := st.energy i
  let dist := st.drops cx - (cy : ℚ)
  let isRain : Bool := if dist > 0 ∧ dist < 15 then true else false
  let isRainHead : Bool := if dist > 0 ∧ dist < 2 then true else false
  let bayer := bayerMatrix (cy % 4) (cx % 4)
  let ch := selectGlyph energy lumaNorm structureVal edge bayer isRain i
    st.frameCount
  let rgb :=
    if showColor then naturalColor p.1 p.2.1 p.2.2 lumaNorm energy
    else terminalColor structureVal edge energy isRain isRainHead
  (ch, rgb)

/-- Fresh-mount engine state: no buffers allocated yet. -/
def initState : EngineState :=
  ⟨0, 0, fun _ => 0, 0, fun _ => 0, fun _ => 0, fun _ => 0⟩

/-- The all-black camera frame. -/
def blackPixels : ℕ → ℚ × ℚ × ℚ := fun _ => (0, 0, 0)

/-- `n` ready ticks of the black-camera 4×4 scenario of claim C9: decay
scale at its UI default 30, stream persistence 0 %. -/
def blackRun (randInit randReset : ℕ → ℚ) : ℕ → EngineState
  | 0 => initState
  | n + 1 => (renderTick true 4 4 30 0 blackPixels randInit randReset
      (blackRun randInit randReset n)).1

/-- `Math.pow` oracle used in the black scenario; it agrees with
`Math.pow` at the only point evaluated there (`0^2.2 = 0`). -/
def powZero : ℚ → ℚ → ℚ := fun _ _ => 0

/-- `Math.sin` oracle for the black scenario (its value is irrelevant
there: the solarization branch never fires at luma 0). -/
def sinZero : ℚ → ℚ := fun _ => 0

/-- Initial `Math.random()` draws of 0.25: every drop starts at
`0.25 · (−4) = −1`. -/
def quarterInit : ℕ → ℚ := fun _ => 1/4

/-- Reset `Math.random()` draws of 0 (no reset fires in the first five
frames anyway). -/
def zeroReset : ℕ → ℚ := fun _ => 0

lemma lumaOf_zero : lumaOf 0 0 0 = 0 := by norm_num [lumaOf]

lemma totalLumaOf_black (n : ℕ) : totalLumaOf n blackPixels = 0 := by
  simp [totalLumaOf, blackPixels, lumaOf]

lemma renderTick_black_step (ri rr : ℕ → ℚ) (st : EngineState)
    (hbuf : st.cellsLen = 16 →
      ∀ i, i < 16 → st.energy i = 0 ∧ st.prevLuma i = 0) :
    (renderTick true 4 4 30 0 blackPixels ri rr st).1.cellsLen = 16 ∧
    (renderTick true 4 4 30 0 blackPixels ri rr st).1.dropsLen = 4 ∧
    (renderTick true 4 4 30 0 blackPixels ri rr st).1.frameCount =
      st.frameCount + 1 ∧
    ∀ i, i < 16 →
      (renderTick true 4 4 30 0 blackPixels ri rr st).1.energy i = 0 ∧
      (renderTick true 4 4 30 0 blackPixels ri rr st).1.prevLuma i = 0 ∧
      (renderTick true 4 4 30 0 blackPixels ri rr st).1.currentLuma i = 0 := by
  refine ⟨?_, ?_, ?_, ?_⟩
  · show (energyRealloc (4 * 4) st.cellsLen st.energy st.prevLuma
      st.currentLuma).1 = 16
    unfold energyRealloc
    split_ifs with h
    · rfl
    · push_neg at h
      omega
  · show (dropsRealloc 4 4 ri st.dropsLen st.drops).1 = 4
    unfold dropsRealloc
    split_ifs with h
    · rfl
    · push_neg at h
      exact h
  · rfl
  · intro i hi
    by_cases hc : st.cellsLen = 16
    · rcases hbuf hc i hi with ⟨he, hp⟩
      norm_num [renderTick, energyRealloc, hc, hi, blackPixels, lumaOf,
        he, hp, energyStep]
    · norm_num [renderTick, energyRealloc, hc, hi, blackPixels, lumaOf,
        energyStep]

lemma blackRun_core (ri rr : ℕ → ℚ) :
    ∀ n, 1 ≤ n →
      (blackRun ri rr n).cellsLen = 16 ∧
      (blackRun ri rr n).dropsLen = 4 ∧
      (blackRun ri rr n).frameCount = n ∧
      ∀ i, i < 16 →
        (blackRun ri rr n).energy i = 0 ∧
        (blackRun ri rr n).prevLuma i = 0 ∧
        (blackRun ri rr n).currentLuma i = 0 := by
  intro n hn
  induction n with
  | zero => omega
  | succ n ih =>
    rcases Nat.eq_or_lt_of_le hn with h | h
    · -- n = 0 : first tick from the fresh state
      have h0 : n = 0 := by omega
      subst h0
      have := renderTick_black_step ri rr initState
        (by intro h; simp [initState] at h)
      simpa [blackRun, initState] using this
    · have hn1 : 1 ≤ n := by omega
      rcases ih hn1 with ⟨hc, hd, hf, hb⟩
      have := renderTick_black_step ri rr (blackRun ri rr n)
        (fun _ i hi => ⟨(hb i hi).1, (hb i hi).2.1⟩)
      rcases this with ⟨h1, h2, h3, h4⟩
      exact ⟨by simpa [blackRun] using h1, by simpa [blackRun] using h2,
        by rw [blackRun, h3, hf], by simpa [blackRun] using h4⟩

lemma blackPixels_apply (i : ℕ) : blackPixels i = (0, 0, 0) := rfl

lemma edgeAt_zero_black (cur : ℕ → ℚ) (h : ∀ j, j < 16 → cur j = 0)
    (cx cy : ℕ) (hx : cx < 4) (hy : cy < 4) : edgeAt 4 4 cur cx cy = 0 := by
  rw [edgeAt]
  split_ifs with hint
  · obtain ⟨h1, h2, h3, h4⟩ := hint
    rw [h (cy * 4 + cx) (by omega), h (cy * 4 + cx - 1) (by omega),
      h (cy * 4 + cx + 1) (by omega), h (cy * 4 + cx - 4) (by omega),
      h (cy * 4 + cx + 4) (by omega)]
    norm_num
  · rfl

lemma renderCell_black (powf : ℚ → ℚ → ℚ) (sinf : ℚ → ℚ) (st : EngineState)
    (hpow : powf 0 (11/5) = 0)
    (hcur : ∀ j, j < 16 → st.currentLuma j = 0)
    (i : ℕ) (hi : i < 16) (hen : st.energy i = 0) :
    (renderCell 4 4 false powf sinf blackPixels st i).2.1 = 0 ∧
    (renderCell 4 4 false powf sinf blackPixels st i).2.2.2 = 0 ∧
    (¬(st.drops (i % 4) - ((i / 4 : ℕ) : ℚ) > 0 ∧
        st.drops (i % 4) - ((i / 4 : ℕ) : ℚ) < 15) →
      (renderCell 4 4 false powf sinf blackPixels st i).1 = ' ' ∧
      (renderCell 4 4 false powf sinf blackPixels st i).2.2.1 = 24) ∧
    ((st.drops (i % 4) - ((i / 4 : ℕ) : ℚ) > 0 ∧
        st.drops (i % 4) - ((i / 4 : ℕ) : ℚ) < 15) →
      (renderCell 4 4 false powf sinf blackPixels st i).1 =
        rainGlyph i st.frameCount ∧
      (st.drops (i % 4) - ((i / 4 : ℕ) : ℚ) < 2 →
        (renderCell 4 4 false powf sinf blackPixels st i).2.2.1 = 54) ∧
      (¬st.drops (i % 4) - ((i / 4 : ℕ) : ℚ) < 2 →
        (renderCell 4 4 false powf sinf blackPixels st i).2.2.1 = 36)) := by
  have hiq : i % 4 < 4 := Nat.mod_lt _ (by norm_num)
  have hdivq : i / 4 < 4 := by omega
  have hedge : edgeAt 4 4 st.currentLuma (i % 4) (i / 4) = 0 :=
    edgeAt_zero_black st.currentLuma hcur _ _ hiq hdivq
  refine ⟨?_, ?_, ?_, ?_⟩
  · norm_num [renderCell, blackPixels_apply, lumaOf_zero, totalLumaOf_black, adaptiveGamma, hpow, hen,
      hedge, terminalColor, jsTrunc]
  · norm_num [renderCell, blackPixels_apply, lumaOf_zero, totalLumaOf_black, adaptiveGamma, hpow, hen,
      hedge, terminalColor, jsTrunc]
  · intro hrain
    have hrain' : ¬(((i / 4 : ℕ) : ℚ) < st.drops (i % 4) ∧
        st.drops (i % 4) - ((i / 4 : ℕ) : ℚ) < 15) := by
      intro hc
      exact hrain ⟨by linarith [hc.1], hc.2⟩
    constructor
    · norm_num [renderCell, blackPixels_apply, lumaOf_zero, totalLumaOf_black,
        adaptiveGamma, hpow, hen, hedge, selectGlyph, hrain']
    · norm_num [renderCell, blackPixels_apply, lumaOf_zero, totalLumaOf_black,
        adaptiveGamma, hpow, hen, hedge, terminalColor, jsTrunc, hrain']
  · intro hrain
    have hA : ((i / 4 : ℕ) : ℚ) < st.drops (i % 4) := by linarith [hrain.1]
    have hrain' : ((i / 4 : ℕ) : ℚ) < st.drops (i % 4) ∧
        st.drops (i % 4) - ((i / 4 : ℕ) : ℚ) < 15 := ⟨hA, hrain.2⟩
    refine ⟨?_, ?_, ?_⟩
    · norm_num [renderCell, blackPixels_apply, lumaOf_zero, totalLumaOf_black,
        adaptiveGamma, hpow, hen, hedge, selectGlyph, rainGlyph, hrain']
    · intro hhead
      have hhead' : ((i / 4 : ℕ) : ℚ) < st.drops (i % 4) ∧
          st.drops (i % 4) - ((i / 4 : ℕ) : ℚ) < 2 := ⟨hA, hhead⟩
      norm_num [renderCell, blackPixels_apply, lumaOf_zero, totalLumaOf_black,
        adaptiveGamma, hpow, hen, hedge, terminalColor, jsTrunc, hrain', hhead']
    · intro hhead
      have hnot : ¬(((i / 4 : ℕ) : ℚ) < st.drops (i % 4) ∧
          st.drops (i % 4) - ((i / 4 : ℕ) : ℚ) < 2) := fun hc => hhead hc.2
      norm_num [renderCell, blackPixels_apply, lumaOf_zero, totalLumaOf_black,
        adaptiveGamma, hpow, hen, hedge, terminalColor, jsTrunc, hrain', hnot,
        hhead]

lemma blackRun5_drops0 : (blackRun quarterInit zeroReset 5).drops 0 = 1 := by
  norm_num [blackRun, renderTick, dropsRealloc, dropStep, initState,
    quarterInit, zeroReset, energyRealloc, blackPixels, lumaOf, energyStep]

/-- C1: for any luma/delta input and any persistence/decay parameters in
0–100, one per-cell energy update maps a cell value in [0,1] back into
[0,1]: the energy is never negative and never exceeds 1. -/
theorem energyStep_mem_Icc (d s luma delta current : ℚ)
    (hd0 : 0 ≤ d) (hd1 : d ≤ 100) (hs0 : 0 ≤ s) (hs1 : s ≤ 100)
    (hc0 : 0 ≤ current) (hc1 : current ≤ 1) :
    energyStep (streamDecayFactor s) (baseDecay d) luma delta current ∈
      Set.Icc (0:ℚ) 1 := by
  rw [Set.mem_Icc]
  unfold energyStep streamDecayFactor baseDecay
  dsimp only
  split_ifs <;> constructor <;> nlinarith

/-- Witness for C1 at a concrete input. -/
theorem energyStep_mem_Icc_witness :
    energyStep (streamDecayFactor 0) (baseDecay 30) 1 0 (1/2) ∈
      Set.Icc (0:ℚ) 1 :=
  energyStep_mem_Icc 30 0 1 0 (1/2) (by norm_num) (by norm_num)
    (by norm_num) (by norm_num) (by norm_num) (by norm_num)

/-- C2 counterexample: at persistence 0% and decay 0% (both admissible),
the high-energy decay factor `streamDecayFactor = 0.05` is strictly
smaller than the low-energy factor `baseDecay = 0.5`, so a high-energy
cell decays faster, not slower: from 0.4 one step leaves 0.02, while
from 0.2 one step leaves 0.1. -/
theorem streamDecay_not_larger_counterexample :
    streamDecayFactor 0 < baseDecay 0 ∧
      energyStep (streamDecayFactor 0) (baseDecay 0) 0 0 (2/5) = 1/50 ∧
      energyStep (streamDecayFactor 0) (baseDecay 0) 0 0 (1/5) = 1/10 := by
  refine ⟨by norm_num [streamDecayFactor, baseDecay], ?_, ?_⟩ <;>
    norm_num [energyStep, streamDecayFactor, baseDecay]

/-- C2 amended: the high-energy decay factor exceeds the low-energy one
exactly when `93·streamTrailDecayScale > 4500 + 30·decayScale`; it is not
larger for every admissible configuration (e.g. it fails when both
parameters are 0, and holds at persistence 100 for any decay in 0–100). -/
theorem streamDecay_gt_baseDecay_iff (s d : ℚ) :
    streamDecayFactor s > baseDecay d ↔ 93 * s > 4500 + 30 * d := by
  unfold streamDecayFactor baseDecay
  constructor <;> intro h <;> nlinarith

/-- C3: on any luma grid with at least 3 columns and 3 rows, each interior
cell's edge value is the absolute discrete Laplacian
`|4·luma[i] − luma[left] − luma[right] − luma[up] − luma[down]|`, and every
cell on the 1-cell border has edge value exactly 0, for any input. -/
theorem edgeAt_laplacian_interior_zero_border (cols rows : ℕ) (luma : ℕ → ℚ)
    (cx cy : ℕ) (hcols : 3 ≤ cols) (hrows : 3 ≤ rows)
    (hx : cx < cols) (hy : cy < rows) :
    ((0 < cx ∧ cx < cols - 1 ∧ 0 < cy ∧ cy < rows - 1) →
      edgeAt cols rows luma cx cy =
        |4 * luma (cy * cols + cx) - luma (cy * cols + cx - 1) -
          luma (cy * cols + cx + 1) - luma (cy * cols + cx - cols) -
          luma (cy * cols + cx + cols)|) ∧
    ((cx = 0 ∨ cx = cols - 1 ∨ cy = 0 ∨ cy = rows - 1) →
      edgeAt cols rows luma cx cy = 0) := by
  constructor
  · intro h
    rw [edgeAt, if_pos h]
  · intro h
    rw [edgeAt, if_neg]
    rintro ⟨h1, h2, h3, h4⟩
    rcases h with h | h | h | h <;> omega

/-- Witness for C3 on a concrete 3×3 grid: interior cell (1,1) and the
border disjunction instantiated. -/
theorem edgeAt_laplacian_witness :
    ((0 < 1 ∧ 1 < 3 - 1 ∧ 0 < 1 ∧ 1 < 3 - 1) →
      edgeAt 3 3 (fun i => (i : ℚ)) 1 1 =
        |4 * ((1 * 3 + 1 : ℕ) : ℚ) - ((1 * 3 + 1 - 1 : ℕ) : ℚ) -
          ((1 * 3 + 1 + 1 : ℕ) : ℚ) - ((1 * 3 + 1 - 3 : ℕ) : ℚ) -
          ((1 * 3 + 1 + 3 : ℕ) : ℚ)|) ∧
    ((1 = 0 ∨ 1 = 3 - 1 ∨ 1 = 0 ∨ 1 = 3 - 1) →
      edgeAt 3 3 (fun i => (i : ℚ)) 1 1 = 0) :=
  edgeAt_laplacian_interior_zero_border 3 3 (fun i => (i : ℚ)) 1 1
    (by norm_num) (by norm_num) (by norm_num) (by norm_num)

/-- C4 counterexample: with 10 rows, a head at 9.8 — which after advancing
sits at 10.2, far below `rows + margin` for every margin ≥ 20 — is
nevertheless reset (to −20 here), and the position strictly decreases.
The reset threshold is `rows`, not `rows + margin`, and the advance is the
constant 0.4, independent of any column energy. -/
theorem dropStep_reset_threshold_counterexample :
    dropStep 10 0 (49/5) = -20 ∧ (49/5 : ℚ) + 2/5 < (10 : ℚ) + 20 ∧
      dropStep 10 0 (49/5) < 49/5 := by
  refine ⟨?_, by norm_num, ?_⟩ <;> norm_num [dropStep]

/-- C4 amended: each frame every head advances by the constant 0.4
(independent of column energy and of any global speed parameter), so the
position is non-decreasing while the advanced head stays at or below
`rows`; as soon as it exceeds `rows` it resets to `-20 - rand·50`, a value
in (−70, −20] for `rand ∈ [0, 1)`. -/
theorem dropStep_advance_or_reset (rows : ℕ) (r p : ℚ)
    (hr0 : 0 ≤ r) (hr1 : r < 1) :
    (p + 2/5 ≤ (rows : ℚ) → dropStep rows r p = p + 2/5) ∧
    ((rows : ℚ) < p + 2/5 →
      dropStep rows r p = -20 - r * 50 ∧
        -70 < dropStep rows r p ∧ dropStep rows r p ≤ -20) := by
  constructor
  · intro h
    rw [dropStep, if_neg (not_lt.mpr h)]
  · intro h
    rw [dropStep, if_pos h]
    refine ⟨rfl, by linarith, by linarith⟩

/-- Witness for C4 at rows = 10, rand = 1/2, head = 10 (reset branch:
10.4 > 10, reset value −45). -/
theorem dropStep_advance_or_reset_witness :
    ((10 : ℚ) + 2/5 ≤ ((10 : ℕ) : ℚ) → dropStep 10 (1/2) 10 = 10 + 2/5) ∧
    (((10 : ℕ) : ℚ) < 10 + 2/5 →
      dropStep 10 (1/2) 10 = -20 - (1/2) * 50 ∧
        -70 < dropStep 10 (1/2) 10 ∧ dropStep 10 (1/2) 10 ≤ -20) :=
  dropStep_advance_or_reset 10 (1/2) 10 (by norm_num) (by norm_num)

/-- C6 amended: glyph selection follows the claimed priority order —
high energy → Bayer dither (of the gamma-corrected luma, not the
structure value), else rain trail → alternating glyph keyed by cell index
plus frame count, else strong edge → always '1', else the three-tier
structure mapping with two more Bayer comparisons falling to blank. -/
theorem selectGlyph_priority_order (energy lumaNorm structureVal edge
    bayerThreshold : ℚ) (isRain : Bool) (i frameTick : ℕ) :
    selectGlyph energy lumaNorm structureVal edge bayerThreshold
        isRain i frameTick =
      glyphPolicyAmended energy lumaNorm structureVal edge bayerThreshold
        isRain i frameTick := by
  unfold selectGlyph glyphPolicyAmended ditherGlyph rainGlyph structureTier
  rfl

/-- C6 counterexample: with energy 0.6 (above the high threshold),
gamma-corrected luma 0.55, consistent structure value
0.55·(1.8 − 0.55) = 0.6875 and Bayer entry 10/16 = 0.625 at
(row mod 4, col mod 4) = (0, 3), the code emits '0' (luma 0.55 ≤ 0.625)
while the claimed structure-based comparison would emit '1'
(0.6875 > 0.625). -/
theorem selectGlyph_high_energy_counterexample :
    selectGlyph (3/5) (11/20) (11/20 * (9/5 - 11/20)) 0 (bayerMatrix 0 3)
        false 0 0 = '0' ∧
    selectGlyphClaimed (3/5) (11/20) (11/20 * (9/5 - 11/20)) 0 (bayerMatrix 0 3)
        false 0 0 = '1' ∧
    selectGlyph (3/5) (11/20) (11/20 * (9/5 - 11/20)) 0 (bayerMatrix 0 3)
        false 0 0 ≠
      selectGlyphClaimed (3/5) (11/20) (11/20 * (9/5 - 11/20)) 0 (bayerMatrix 0 3)
        false 0 0 := by
  have h1 : selectGlyph (3/5) (11/20) (11/20 * (9/5 - 11/20)) 0
      (bayerMatrix 0 3) false 0 0 = '0' := by
    norm_num [selectGlyph, bayerMatrix]
  have h2 : selectGlyphClaimed (3/5) (11/20) (11/20 * (9/5 - 11/20)) 0
      (bayerMatrix 0 3) false 0 0 = '1' := by
    norm_num [selectGlyphClaimed, bayerMatrix]
  refine ⟨h1, h2, ?_⟩
  rw [h1, h2]
  decide

/-- C10: in terminal mode the emitted red channel equals the blue channel
for every cell on every frame; only green carries an independent
intensity. -/
theorem terminalColor_red_eq_blue (structureVal edge energy : ℚ)
    (isRain isRainHead : Bool) :
    (terminalColor structureVal edge energy isRain isRainHead).1 =
      (terminalColor structureVal edge energy isRain isRainHead).2.2 := rfl

/-- C7: after computing every cell's luma, `signalMean` is set to the
arithmetic mean of the luma grid, `exposureGain` is stepped by
`(0.45 − signalMean) · 0.01` and clamped to [0.7, 1.5]; hence after every
frame the exposure gain lies in [0.7, 1.5]. -/
theorem exposureUpdate_mean_step_clamped (lumas : List ℚ) (g : ℚ)
    (hne : lumas ≠ []) :
    (exposureUpdate lumas g).1 = lumas.sum / lumas.length ∧
    (exposureUpdate lumas g).2 =
      max (7/10) (min (3/2) (g + (9/20 - lumas.sum / lumas.length) * (1/100))) ∧
    (exposureUpdate lumas g).2 ∈ Set.Icc (7/10 : ℚ) (3/2) := by
  refine ⟨rfl, rfl, ?_⟩
  rw [Set.mem_Icc]
  exact ⟨le_max_left _ _, max_le (by norm_num) (min_le_left _ _)⟩

/-- Witness for C7 on a concrete two-cell luma buffer. -/
theorem exposureUpdate_mean_step_clamped_witness :
    (exposureUpdate [1/2, 1/4] 1).1 =
        ([1/2, 1/4] : List ℚ).sum / ([1/2, 1/4] : List ℚ).length ∧
    (exposureUpdate [1/2, 1/4] 1).2 =
      max (7/10) (min (3/2)
        (1 + (9/20 - ([1/2, 1/4] : List ℚ).sum / ([1/2, 1/4] : List ℚ).length) *
          (1/100))) ∧
    (exposureUpdate [1/2, 1/4] 1).2 ∈ Set.Icc (7/10 : ℚ) (3/2) :=
  exposureUpdate_mean_step_clamped [1/2, 1/4] 1 (List.cons_ne_nil _ _)

/-- C8 counterexample: resizing from a 2×3 grid to a 2×4 grid (cols
unchanged, `cols×rows` changed from 6 to 8) zero-resets the Energy Grid —
a cell holding 1/2 becomes 0 — while the Rain Columns buffer keeps its
old contents (a head at 5 stays 5, no re-randomisation), so the reset is
partial, not atomic. -/
theorem buffer_reset_partial_counterexample :
    (energyRealloc (2 * 4) (2 * 3) (fun _ => 1/2) (fun _ => 0)
        (fun _ => 0)).2.1 0 = 0 ∧
    (fun _ => (1/2 : ℚ)) 0 = 1/2 ∧
    (dropsRealloc 2 4 (fun _ => 1) 2 (fun _ => 5)).2 0 = 5 := by
  refine ⟨?_, rfl, ?_⟩ <;> norm_num [energyRealloc, dropsRealloc]

/-- C8 amended: the Rain Columns buffer is reallocated (and
re-randomised) exactly when the stored column count differs from `cols`,
and the Energy Grid and luma buffers are reallocated (and zeroed) exactly
when the stored cell count differs from `cols×rows`; the two conditions
are independent, so a rows-only change resets the Energy Grid while the
Rain Columns keep their prior values. -/
theorem buffer_realloc_conditions (cols rows dropsLen cellsLen : ℕ)
    (randInit drops energy prevLuma currentLuma : ℕ → ℚ) :
    (dropsLen = cols →
      dropsRealloc cols rows randInit dropsLen drops = (dropsLen, drops)) ∧
    (dropsLen ≠ cols →
      dropsRealloc cols rows randInit dropsLen drops =
        (cols, fun i => randInit i * (-(rows : ℚ)))) ∧
    (cellsLen = cols * rows →
      energyRealloc (cols * rows) cellsLen energy prevLuma currentLuma =
        (cellsLen, energy, prevLuma, currentLuma)) ∧
    (cellsLen ≠ cols * rows →
      energyRealloc (cols * rows) cellsLen energy prevLuma currentLuma =
        (cols * rows, fun _ => 0, fun _ => 0, fun _ => 0)) := by
  refine ⟨fun h => ?_, fun h => ?_, fun h => ?_, fun h => ?_⟩ <;>
    simp [dropsRealloc, energyRealloc, h]

/-- Witness for C8 amended: a rows-only change (2×3 → 2×4) keeps the
drops buffer and resets the energy buffer. -/
theorem buffer_realloc_conditions_witness :
    (2 : ℕ) = 2 ∧
      dropsRealloc 2 4 (fun _ => 1) 2 (fun _ => 5) = (2, fun _ => 5) ∧
      (2 * 3 : ℕ) ≠ 2 * 4 ∧
      energyRealloc (2 * 4) (2 * 3) (fun _ => 1/2) (fun _ => 0) (fun _ => 0) =
        (2 * 4, fun _ => 0, fun _ => 0, fun _ => 0) :=
  ⟨rfl,
   (buffer_realloc_conditions 2 4 2 (2 * 3) (fun _ => 1) (fun _ => 5)
      (fun _ => 1/2) (fun _ => 0) (fun _ => 0)).1 rfl,
   by norm_num,
   (buffer_realloc_conditions 2 4 2 (2 * 3) (fun _ => 1) (fun _ => 5)
      (fun _ => 1/2) (fun _ => 0) (fun _ => 0)).2.2.2 (by norm_num)⟩

/-- C5 counterexample: a ready tick on a degenerate zero-row grid still
increments the frame counter (0 → 1) and still advances/resets the rain
column (a head at 5 resets to −20 once 5.4 exceeds rows = 0), so engine
state is mutated even though all grid work is skipped. -/
theorem renderTick_degenerate_mutates_counterexample :
    (renderTick true 1 0 30 0 (fun _ => (0, 0, 0)) (fun _ => 0) (fun _ => 0)
        skipState).1.frameCount = 1 ∧
    skipState.frameCount = 0 ∧
    (renderTick true 1 0 30 0 (fun _ => (0, 0, 0)) (fun _ => 0) (fun _ => 0)
        skipState).1.drops 0 = -20 ∧
    skipState.drops 0 = 5 := by
  refine ⟨?_, rfl, ?_, rfl⟩ <;>
    norm_num [renderTick, dropsRealloc, dropStep, skipState]

/-- C5 amended: when no frame is available (ready flag false) the tick
mutates nothing — every engine buffer and the frame counter keep their
prior values — and the next tick is still scheduled.  When the frame is
ready but the grid is degenerate (zero cols or zero rows), the energy and
luma buffers are untouched and the next tick is scheduled, but the frame
counter still increments (and the rain columns still step, per the
counterexample). -/
theorem renderTick_skip_paths (ready : Bool) (cols rows : ℕ) (d s : ℚ)
    (pixels : ℕ → ℚ × ℚ × ℚ) (ri rr : ℕ → ℚ) (st : EngineState) :
    (ready = false →
      renderTick ready cols rows d s pixels ri rr st = (st, true)) ∧
    (ready = true → (cols = 0 ∨ rows = 0) →
      (renderTick ready cols rows d s pixels ri rr st).1.cellsLen =
          st.cellsLen ∧
      (renderTick ready cols rows d s pixels ri rr st).1.energy = st.energy ∧
      (renderTick ready cols rows d s pixels ri rr st).1.prevLuma =
          st.prevLuma ∧
      (renderTick ready cols rows d s pixels ri rr st).1.currentLuma =
          st.currentLuma ∧
      (renderTick ready cols rows d s pixels ri rr st).1.frameCount =
          st.frameCount + 1 ∧
      (renderTick ready cols rows d s pixels ri rr st).2 = true) := by
  constructor
  · intro h
    subst h
    rfl
  · intro h hdeg
    subst h
    have hne : ¬(0 < cols ∧ 0 < rows) := by
      rcases hdeg with h | h <;> subst h <;> simp
    simp [renderTick, if_neg hne]

/-- Witness for C5 amended: both skip paths at concrete inputs — a
non-ready tick leaves `skipState` unchanged, and a ready zero-row tick
keeps the energy buffer while bumping the frame counter. -/
theorem renderTick_skip_paths_witness :
    (renderTick false 1 0 30 0 (fun _ => (0, 0, 0)) (fun _ => 0) (fun _ => 0)
        skipState = (skipState, true)) ∧
    ((renderTick true 1 0 30 0 (fun _ => (0, 0, 0)) (fun _ => 0) (fun _ => 0)
        skipState).1.energy = skipState.energy ∧
      (renderTick true 1 0 30 0 (fun _ => (0, 0, 0)) (fun _ => 0)
        (fun _ => 0) skipState).1.frameCount = skipState.frameCount + 1) :=
  ⟨(renderTick_skip_paths false 1 0 30 0 (fun _ => (0, 0, 0)) (fun _ => 0)
      (fun _ => 0) skipState).1 rfl,
   ((renderTick_skip_paths true 1 0 30 0 (fun _ => (0, 0, 0)) (fun _ => 0)
      (fun _ => 0) skipState).2 rfl (Or.inr rfl)).2.1,
   ((renderTick_skip_paths true 1 0 30 0 (fun _ => (0, 0, 0)) (fun _ => 0)
      (fun _ => 0) skipState).2 rfl (Or.inr rfl)).2.2.2.2.1⟩

/-- C9 amended: in the black 4×4 scenario at persistence 0 %, after 5
frames every cell's energy is 0 and every cell's red and blue channels
are 0; every cell outside the independent rain trail renders the blank
glyph with green at the ambient floor 24 — not 0 — while cells inside the
rain trail still render the alternating rain glyph (see the
counterexample). -/
theorem blackRun_after_five_frames (powf : ℚ → ℚ → ℚ) (sinf : ℚ → ℚ)
    (ri rr : ℕ → ℚ) (i : ℕ) (hpow : powf 0 (11/5) = 0) (hi : i < 16) :
    (blackRun ri rr 5).energy i = 0 ∧
    (renderCell 4 4 false powf sinf blackPixels (blackRun ri rr 5) i).2.1 = 0 ∧
    (renderCell 4 4 false powf sinf blackPixels
      (blackRun ri rr 5) i).2.2.2 = 0 ∧
    (¬((blackRun ri rr 5).drops (i % 4) - ((i / 4 : ℕ) : ℚ) > 0 ∧
        (blackRun ri rr 5).drops (i % 4) - ((i / 4 : ℕ) : ℚ) < 15) →
      (renderCell 4 4 false powf sinf blackPixels
        (blackRun ri rr 5) i).1 = ' ' ∧
      (renderCell 4 4 false powf sinf blackPixels
        (blackRun ri rr 5) i).2.2.1 = 24) := by
  obtain ⟨hc, hd, hf, hb⟩ := blackRun_core ri rr 5 (by norm_num)
  have hcur : ∀ j, j < 16 → (blackRun ri rr 5).currentLuma j = 0 :=
    fun j hj => (hb j hj).2.2
  have hen : (blackRun ri rr 5).energy i = 0 := (hb i hi).1
  obtain ⟨h1, h2, h3, _⟩ := renderCell_black powf sinf _ hpow hcur i hi hen
  exact ⟨hen, h1, h2, h3⟩

/-- Witness for C9 amended at cell 4 of the concrete run (drop heads at
1.0, so cell 4 — column 0, row 1 — is outside the rain trail). -/
theorem blackRun_after_five_frames_witness :
    (blackRun quarterInit zeroReset 5).energy 4 = 0 ∧
    (renderCell 4 4 false powZero sinZero blackPixels
      (blackRun quarterInit zeroReset 5) 4).2.1 = 0 ∧
    (renderCell 4 4 false powZero sinZero blackPixels
      (blackRun quarterInit zeroReset 5) 4).2.2.2 = 0 ∧
    (¬((blackRun quarterInit zeroReset 5).drops (4 % 4) -
          ((4 / 4 : ℕ) : ℚ) > 0 ∧
        (blackRun quarterInit zeroReset 5).drops (4 % 4) -
          ((4 / 4 : ℕ) : ℚ) < 15) →
      (renderCell 4 4 false powZero sinZero blackPixels
        (blackRun quarterInit zeroReset 5) 4).1 = ' ' ∧
      (renderCell 4 4 false powZero sinZero blackPixels
        (blackRun quarterInit zeroReset 5) 4).2.2.1 = 24) :=
  blackRun_after_five_frames powZero sinZero quarterInit zeroReset 4
    rfl (by norm_num)

/-- C9 counterexample: in the black 4×4 run at frame 5 with admissible
random draws (initial draws 0.25, so every head starts at −1 and sits at
1.0 by frame 5), cell 0 lies under a rain head: its glyph is '1' — not
blank — and its green channel is 54; the non-rain cell 4 does render the
blank glyph, but its green channel is the ambient 24, not 0. -/
theorem blackRun_frame5_counterexample :
    (renderCell 4 4 false powZero sinZero blackPixels
        (blackRun quarterInit zeroReset 5) 0).1 = '1' ∧
    (renderCell 4 4 false powZero sinZero blackPixels
        (blackRun quarterInit zeroReset 5) 0).2.2.1 = 54 ∧
    (renderCell 4 4 false powZero sinZero blackPixels
        (blackRun quarterInit zeroReset 5) 4).1 = ' ' ∧
    (renderCell 4 4 false powZero sinZero blackPixels
        (blackRun quarterInit zeroReset 5) 4).2.2.1 = 24 ∧
    ('1' : Char) ≠ ' ' ∧ (54 : ℤ) ≠ 0 ∧ (24 : ℤ) ≠ 0 := by
  obtain ⟨hc, hd, hf, hb⟩ :=
    blackRun_core quarterInit zeroReset 5 (by norm_num)
  have hcur : ∀ j, j < 16 →
      (blackRun quarterInit zeroReset 5).currentLuma j = 0 :=
    fun j hj => (hb j hj).2.2
  have h0 := renderCell_black powZero sinZero _ rfl hcur 0 (by norm_num)
    ((hb 0 (by norm_num)).1)
  have h4 := renderCell_black powZero sinZero _ rfl hcur 4 (by norm_num)
    ((hb 4 (by norm_num)).1)
  have hd0 : (blackRun quarterInit zeroReset 5).drops (0 % 4) -
      ((0 / 4 : ℕ) : ℚ) = 1 := by
    norm_num [blackRun5_drops0]
  have hd4 : (blackRun quarterInit zeroReset 5).drops (4 % 4) -
      ((4 / 4 : ℕ) : ℚ) = 0 := by
    norm_num [blackRun5_drops0]
  have hcond : (blackRun quarterInit zeroReset 5).drops (0 % 4) -
        ((0 / 4 : ℕ) : ℚ) > 0 ∧
      (blackRun quarterInit zeroReset 5).drops (0 % 4) -
        ((0 / 4 : ℕ) : ℚ) < 15 := by
    rw [hd0]
    norm_num
  have hnotrain : ¬((blackRun quarterInit zeroReset 5).drops (4 % 4) -
        ((4 / 4 : ℕ) : ℚ) > 0 ∧
      (blackRun quarterInit zeroReset 5).drops (4 % 4) -
        ((4 / 4 : ℕ) : ℚ) < 15) := by
    rw [hd4]
    norm_num
  obtain ⟨hg0, hg54, _⟩ := h0.2.2.2 hcond
  obtain ⟨hb4, hg24⟩ := h4.2.2.1 hnotrain
  rw [hf] at hg0
  have hland : (5 &&& 4 : ℕ) = 4 := by decide
  have hrg : rainGlyph 0 5 = '1' := by norm_num [rainGlyph, hland]
  refine ⟨hg0.trans hrg, hg54 (by rw [hd0]; norm_num), hb4, hg24, ?_, ?_, ?_⟩
    <;> decide

end MatrixMapper
